import Mathlib

/-
Shallow embedding of the finance ETL monthly-close pipeline
(src/finance_etl: quality.py, transform.py, pipeline.py).

Frames are lists of record structures; pandas Timestamps are calendar
dates (the pipeline only ever compares and renders day-precision dates);
float money amounts are rationals, with numpy's round-half-to-even at two
decimals embedded explicitly.
-/

attribute [local semireducible] Rat.mul Rat.add Rat.sub Rat.inv

deriving instance DecidableEq for Except

namespace FinanceEtl

/-- Calendar date, day precision (pandas Timestamps in this pipeline carry
no meaningful time of day: `fx_to_base` and `add_fx_amount_base` normalise
to `.dt.date` before any join). -/
structure Date where
  y : Nat
  m : Nat
  d : Nat
deriving DecidableEq

/-- Year-month pair: the payroll `month` column ("YYYY-MM") and the
`dt.to_period("M")` key used by `kpi_monthly`. -/
structure Month where
  y : Nat
  m : Nat
deriving DecidableEq

/-- Linear key giving the chronological order on dates (valid for the
calendar dates the pipeline compares: month <= 12, day <= 31). -/
def dateKey (d : Date) : Nat := d.y * 10000 + d.m * 100 + d.d

def isLeap (y : Nat) : Bool := (y % 4 == 0 && y % 100 != 0) || y % 400 == 0

def daysInMonth (y m : Nat) : Nat :=
  if m == 2 then (if isLeap y then 29 else 28)
  else if m == 4 || m == 6 || m == 9 || m == 11 then 30
  else 31

/-- First day of a month: `pd.to_datetime(month + "-01")`. -/
def monthStart (mo : Month) : Date := ⟨mo.y, mo.m, 1⟩

/-- The following month: `start + pd.offsets.MonthBegin(1)` applied to the
first of the month lands on the first of this month. -/
def nextMonth (mo : Month) : Month :=
  if mo.m == 12 then ⟨mo.y + 1, 1⟩ else ⟨mo.y, mo.m + 1⟩

/-- Last day of the month: `pd.to_datetime(month + "-01") + pd.offsets.MonthEnd(0)`
rolls the first of the month forward to the month's final calendar day. -/
def monthEnd (mo : Month) : Date := ⟨mo.y, mo.m, daysInMonth mo.y mo.m⟩

/-- Calendar successor of a date (used to state what "last day of the
month" means independently of `monthEnd`). -/
def nextDay (dt : Date) : Date :=
  if dt.d < daysInMonth dt.y dt.m then ⟨dt.y, dt.m, dt.d + 1⟩
  else if dt.m < 12 then ⟨dt.y, dt.m + 1, 1⟩
  else ⟨dt.y + 1, 1, 1⟩

def pad2 (n : Nat) : String := if n < 10 then "0" ++ toString n else toString n

/-- Rendering of a Month back to its "YYYY-MM" source string (payroll's
`month` column is exactly this form). -/
def monthStr (mo : Month) : String := toString mo.y ++ "-" ++ pad2 mo.m

/-- Rendering of a date as its "YYYY-MM-DD" string (inventory
`document_id` embeds `date.astype(str)`). -/
def dateStr (d : Date) : String :=
  toString d.y ++ "-" ++ pad2 d.m ++ "-" ++ pad2 d.d

/-- Round a rational to the nearest integer, ties to even: numpy's
rounding mode used by `Series.round`. -/
def rhe (q : ℚ) : ℤ :=
  if q - ⌊q⌋ < 1/2 then ⌊q⌋
  else if 1/2 < q - ⌊q⌋ then ⌊q⌋ + 1
  else if ⌊q⌋ % 2 = 0 then ⌊q⌋ else ⌊q⌋ + 1

/-- `x.round(2)`: round to two decimal places, ties to even. -/
def round2 (q : ℚ) : ℚ := (rhe (q * 100) : ℚ) / 100

/-- Deduplication keeping first occurrences: `DataFrame.drop_duplicates`. -/
def firstDedupAux [DecidableEq α] (seen : List α) : List α → List α
  | [] => []
  | x :: xs => if x ∈ seen then firstDedupAux seen xs else x :: firstDedupAux (x :: seen) xs

def firstDedup [DecidableEq α] (l : List α) : List α := firstDedupAux [] l

/-- Whether `pre` is a prefix of `l`. -/
def charsPrefix : List Char → List Char → Bool
  | [], _ => true
  | _ :: _, [] => false
  | c :: cs, d :: ds => c == d && charsPrefix cs ds

/-- Whether `pat` occurs as a contiguous run inside the second list. -/
def charsContains (pat : List Char) : List Char → Bool
  | [] => charsPrefix pat []
  | c :: t => charsPrefix pat (c :: t) || charsContains pat t

/-- ASCII lower-casing of one character (the pipeline only ever matches
ASCII check names and config strings). -/
def lowerChar (c : Char) : Char :=
  (((([('A', 'a'), ('B', 'b'), ('C', 'c'), ('D', 'd'), ('E', 'e'), ('F', 'f'),
      ('G', 'g'), ('H', 'h'), ('I', 'i'), ('J', 'j'), ('K', 'k'), ('L', 'l'),
      ('M', 'm'), ('N', 'n'), ('O', 'o'), ('P', 'p'), ('Q', 'q'), ('R', 'r'),
      ('S', 's'), ('T', 't'), ('U', 'u'), ('V', 'v'), ('W', 'w'), ('X', 'x'),
      ('Y', 'y'), ('Z', 'z')] : List (Char × Char)).find?
    (fun p => p.1 == c)).map Prod.snd).getD c)

/-- ASCII upper-casing of one character. -/
def upperChar (c : Char) : Char :=
  (((([('a', 'A'), ('b', 'B'), ('c', 'C'), ('d', 'D'), ('e', 'E'), ('f', 'F'),
      ('g', 'G'), ('h', 'H'), ('i', 'I'), ('j', 'J'), ('k', 'K'), ('l', 'L'),
      ('m', 'M'), ('n', 'N'), ('o', 'O'), ('p', 'P'), ('q', 'Q'), ('r', 'R'),
      ('s', 'S'), ('t', 'T'), ('u', 'U'), ('v', 'V'), ('w', 'W'), ('x', 'X'),
      ('y', 'Y'), ('z', 'Z')] : List (Char × Char)).find?
    (fun p => p.1 == c)).map Prod.snd).getD c)

/-- Python `str.upper()` on the ASCII strings the pipeline handles. -/
def strUpper (s : String) : String := ⟨s.data.map upperChar⟩

def isSpaceChar (c : Char) : Bool := c == ' ' || c == '\t' || c == '\n' || c == '\r'

/-- Python `str.strip()`. -/
def strStrip (s : String) : String :=
  ⟨((s.data.dropWhile isSpaceChar).reverse.dropWhile isSpaceChar).reverse⟩

/-- Substring test: `pat` occurs somewhere in `s`. -/
def containsSub (s pat : String) : Bool := charsContains pat.data s.data

/-- Case-insensitive substring test: pandas `.str.contains(patt, case=False)`
on a regex that is an alternation of literal strings. -/
def containsCI (s pat : String) : Bool :=
  containsSub ⟨s.data.map lowerChar⟩ ⟨pat.data.map lowerChar⟩

/-! ## Record shapes (validated rows) -/

/-- config.py `Settings` (directory paths are IO concerns, out of the
embedding). -/
structure Settings where
  base_currency : String
  allowed_currencies : List String
deriving DecidableEq

/-- One validated row of sales.csv. -/
structure SaleRow where
  date : Date
  entity : String
  invoice_id : String
  account_code : String
  currency : String
  amount : ℚ
  description : Option String
deriving DecidableEq

/-- One validated row of expenses.csv. -/
structure ExpenseRow where
  date : Date
  entity : String
  bill_id : String
  account_code : String
  currency : String
  amount : ℚ
  description : Option String
deriving DecidableEq

/-- One validated row of payroll.csv. -/
structure PayrollRow where
  month : Month
  entity : String
  employee_id : String
  currency : String
  gross : ℚ
  deductions : ℚ
  net : ℚ
deriving DecidableEq

/-- One validated row of inventory_movements.csv. -/
structure InventoryRow where
  date : Date
  entity : String
  sku : String
  movement_type : String
  qty : ℚ
  unit_cost : ℚ
  currency : String
deriving DecidableEq

/-- One validated row of fx_rates.csv. -/
structure FxRow where
  date : Date
  from_currency : String
  to_currency : String
  rate : ℚ
deriving DecidableEq

/-- One row of the reference chart of accounts. -/
structure DimAccount where
  account_code : String
  account_name : String
  account_type : String
deriving DecidableEq

/-! ## Raw (pre-validation) record shapes

A raw cell is `none` when the source value is missing or fails pandera's
dtype coercion; otherwise it carries the coerced value. pandera's per-cell
dtype/nullability checks become presence checks on these options. -/

structure RawSaleRow where
  date : Option Date
  entity : Option String
  invoice_id : Option String
  account_code : Option String
  currency : Option String
  amount : Option ℚ
  description : Option String
deriving DecidableEq

structure RawExpenseRow where
  date : Option Date
  entity : Option String
  bill_id : Option String
  account_code : Option String
  currency : Option String
  amount : Option ℚ
  description : Option String
deriving DecidableEq

structure RawPayrollRow where
  month : Option Month
  entity : Option String
  employee_id : Option String
  currency : Option String
  gross : Option ℚ
  deductions : Option ℚ
  net : Option ℚ
deriving DecidableEq

structure RawInventoryRow where
  date : Option Date
  entity : Option String
  sku : Option String
  movement_type : Option String
  qty : Option ℚ
  unit_cost : Option ℚ
  currency : Option String
deriving DecidableEq

structure RawFxRow where
  date : Option Date
  from_currency : Option String
  to_currency : Option String
  rate : Option ℚ
deriving DecidableEq

/-- One row of pandera's `SchemaErrors.failure_cases` after
`validate_or_collect` prepends the dataset name (quality.py lines
99-107). `index` is `none` for whole-table checks. The `failure_case`
and `schema_context` columns carry no logic and are omitted. -/
structure DQIssue where
  dataset : String
  index : Option Nat
  column : Option String
  check : String
deriving DecidableEq

/-! ## quality.py -/

/-- Number of occurrences of key `k` in `l`. -/
def countEq [DecidableEq κ] (l : List κ) (k : κ) : Nat :=
  (l.filter (fun x => x == k)).length

/-- `df.groupby(keys).size().max()`: `none` models the NaN that pandas
returns for the max of an empty grouping. -/
def maxGroupSize [DecidableEq κ] (l : List κ) : Option Nat :=
  match l with
  | [] => none
  | _ :: _ => some ((l.map (countEq l)).foldl Nat.max 0)

/-- `_dup_check`'s predicate `df.groupby(keys).size().max() == 1`: on an
empty frame the max is NaN and the comparison is false. -/
def dup_ok [DecidableEq κ] (l : List κ) : Bool := maxGroupSize l == some 1

/-- Error string of `_dup_check` (source renders the key list with Python
repr quoting; the quoting is immaterial to every use, which substring
matches on "Duplicates found"). -/
def dup_error (keys label : String) : String :=
  "Duplicates found for keys " ++ keys ++ " in " ++ label

/-- Error string of the payroll whole-table check. -/
def payroll_identity_error : String :=
  "Payroll identity gross - deductions = net violated"

/-- Deviations `|gross - deductions - net|` of the payroll rows whose three
numeric cells are present (pandas `max` skips NaN). -/
def payroll_devs (rows : List RawPayrollRow) : List ℚ :=
  rows.filterMap (fun r =>
    match r.gross, r.deductions, r.net with
    | some g, some d, some n => some |g - d - n|
    | _, _, _ => none)

/-- Payroll whole-table check `(gross - deductions - net).abs().max() < 0.01`:
with no (complete) rows the max is NaN and the comparison is false. -/
def payroll_identity_ok (rows : List RawPayrollRow) : Bool :=
  match payroll_devs rows with
  | [] => false
  | d :: ds => decide ((ds.foldl max d) < 1/100)

/-- pandera's check string for an `isin` membership check. -/
def isinError (allowed : List String) : String :=
  "isin([" ++ String.intercalate ", " allowed ++ "])"

/-- Column-level issues of one raw sales row under `sales_schema`. -/
def raw_sale_issues (allowed : List String) (i : Nat) (r : RawSaleRow) : List DQIssue :=
  (match r.date with
   | none => [⟨"sales", some i, some "date", "not_nullable"⟩]
   | some _ => []) ++
  (match r.entity with
   | none => [⟨"sales", some i, some "entity", "not_nullable"⟩]
   | some _ => []) ++
  (match r.invoice_id with
   | none => [⟨"sales", some i, some "invoice_id", "not_nullable"⟩]
   | some _ => []) ++
  (match r.account_code with
   | none => [⟨"sales", some i, some "account_code", "not_nullable"⟩]
   | some _ => []) ++
  (match r.currency with
   | none => [⟨"sales", some i, some "currency", "not_nullable"⟩]
   | some c => if c ∈ allowed then [] else [⟨"sales", some i, some "currency", isinError allowed⟩]) ++
  (match r.amount with
   | none => [⟨"sales", some i, some "amount", "not_nullable"⟩]
   | some a => if 0 < a then [] else [⟨"sales", some i, some "amount", "greater_than(0)"⟩])

/-- Column-level issues of one raw expenses row under `expenses_schema`. -/
def raw_expense_issues (allowed : List String) (i : Nat) (r : RawExpenseRow) : List DQIssue :=
  (match r.date with
   | none => [⟨"expenses", some i, some "date", "not_nullable"⟩]
   | some _ => []) ++
  (match r.entity with
   | none => [⟨"expenses", some i, some "entity", "not_nullable"⟩]
   | some _ => []) ++
  (match r.bill_id with
   | none => [⟨"expenses", some i, some "bill_id", "not_nullable"⟩]
   | some _ => []) ++
  (match r.account_code with
   | none => [⟨"expenses", some i, some "account_code", "not_nullable"⟩]
   | some _ => []) ++
  (match r.currency with
   | none => [⟨"expenses", some i, some "currency", "not_nullable"⟩]
   | some c => if c ∈ allowed then [] else [⟨"expenses", some i, some "currency", isinError allowed⟩]) ++
  (match r.amount with
   | none => [⟨"expenses", some i, some "amount", "not_nullable"⟩]
   | some a => if 0 < a then [] else [⟨"expenses", some i, some "amount", "greater_than(0)"⟩])

/-- Column-level issues of one raw payroll row under `payroll_schema`. -/
def raw_payroll_issues (allowed : List String) (i : Nat) (r : RawPayrollRow) : List DQIssue :=
  (match r.month with
   | none => [⟨"payroll", some i, some "month", "not_nullable"⟩]
   | some _ => []) ++
  (match r.entity with
   | none => [⟨"payroll", some i, some "entity", "not_nullable"⟩]
   | some _ => []) ++
  (match r.employee_id with
   | none => [⟨"payroll", some i, some "employee_id", "not_nullable"⟩]
   | some _ => []) ++
  (match r.currency with
   | none => [⟨"payroll", some i, some "currency", "not_nullable"⟩]
   | some c => if c ∈ allowed then [] else [⟨"payroll", some i, some "currency", isinError allowed⟩]) ++
  (match r.gross with
   | none => [⟨"payroll", some i, some "gross", "not_nullable"⟩]
   | some g => if 0 ≤ g then [] else [⟨"payroll", some i, some "gross", "greater_than_or_equal_to(0)"⟩]) ++
  (match r.deductions with
   | none => [⟨"payroll", some i, some "deductions", "not_nullable"⟩]
   | some g => if 0 ≤ g then [] else [⟨"payroll", some i, some "deductions", "greater_than_or_equal_to(0)"⟩]) ++
  (match r.net with
   | none => [⟨"payroll", some i, some "net", "not_nullable"⟩]
   | some g => if 0 ≤ g then [] else [⟨"payroll", some i, some "net", "greater_than_or_equal_to(0)"⟩])

/-- Column-level issues of one raw inventory row under `inventory_schema`. -/
def raw_inventory_issues (allowed : List String) (i : Nat) (r : RawInventoryRow) : List DQIssue :=
  (match r.date with
   | none => [⟨"inventory_movements", some i, some "date", "not_nullable"⟩]
   | some _ => []) ++
  (match r.entity with
   | none => [⟨"inventory_movements", some i, some "entity", "not_nullable"⟩]
   | some _ => []) ++
  (match r.sku with
   | none => [⟨"inventory_movements", some i, some "sku", "not_nullable"⟩]
   | some _ => []) ++
  (match r.movement_type with
   | none => [⟨"inventory_movements", some i, some "movement_type", "not_nullable"⟩]
   | some t => if t ∈ (["receipt", "issue", "adjustment"] : List String) then []
               else [⟨"inventory_movements", some i, some "movement_type", isinError ["receipt", "issue", "adjustment"]⟩]) ++
  (match r.qty with
   | none => [⟨"inventory_movements", some i, some "qty", "not_nullable"⟩]
   | some q => if q ≠ 0 then [] else [⟨"inventory_movements", some i, some "qty", "not_equal_to(0)"⟩]) ++
  (match r.unit_cost with
   | none => [⟨"inventory_movements", some i, some "unit_cost", "not_nullable"⟩]
   | some c => if 0 ≤ c then [] else [⟨"inventory_movements", some i, some "unit_cost", "greater_than_or_equal_to(0)"⟩]) ++
  (match r.currency with
   | none => [⟨"inventory_movements", some i, some "currency", "not_nullable"⟩]
   | some c => if c ∈ allowed then [] else [⟨"inventory_movements", some i, some "currency", isinError allowed⟩])

/-- Column-level issues of one raw fx row under `fx_schema`. -/
def raw_fx_issues (allowed : List String) (base : String) (i : Nat) (r : RawFxRow) : List DQIssue :=
  (match r.date with
   | none => [⟨"fx_rates", some i, some "date", "not_nullable"⟩]
   | some _ => []) ++
  (match r.from_currency with
   | none => [⟨"fx_rates", some i, some "from_currency", "not_nullable"⟩]
   | some c => if c ∈ allowed then [] else [⟨"fx_rates", some i, some "from_currency", isinError allowed⟩]) ++
  (match r.to_currency with
   | none => [⟨"fx_rates", some i, some "to_currency", "not_nullable"⟩]
   | some c => if c == base then [] else [⟨"fx_rates", some i, some "to_currency", isinError [base]⟩]) ++
  (match r.rate with
   | none => [⟨"fx_rates", some i, some "rate", "not_nullable"⟩]
   | some q => if 0 < q then [] else [⟨"fx_rates", some i, some "rate", "greater_than(0)"⟩])

/-- Issues of every row, numbered from a starting index. -/
def indexedIssues (f : Nat → ρ → List DQIssue) : Nat → List ρ → List DQIssue
  | _, [] => []
  | i, r :: rs => f i r ++ indexedIssues f (i + 1) rs

/-- Whole-table issue of `sales_schema`: duplicate (entity, invoice_id)
keys (pandas groupby drops rows whose key cells are NaN). -/
def sales_table_issues (rows : List RawSaleRow) : List DQIssue :=
  if dup_ok (rows.filterMap (fun r =>
      match r.entity, r.invoice_id with
      | some e, some i => some (e, i)
      | _, _ => none))
  then [] else [⟨"sales", none, none, dup_error "[entity, invoice_id]" "sales"⟩]

/-- Whole-table issue of `expenses_schema`. -/
def expenses_table_issues (rows : List RawExpenseRow) : List DQIssue :=
  if dup_ok (rows.filterMap (fun r =>
      match r.entity, r.bill_id with
      | some e, some i => some (e, i)
      | _, _ => none))
  then [] else [⟨"expenses", none, none, dup_error "[entity, bill_id]" "expenses"⟩]

/-- Whole-table issue of `payroll_schema`. -/
def payroll_table_issues (rows : List RawPayrollRow) : List DQIssue :=
  if payroll_identity_ok rows then []
  else [⟨"payroll", none, none, payroll_identity_error⟩]

/-- Whole-table issue of `fx_schema`: duplicate (date, from_currency,
to_currency) keys. -/
def fx_table_issues (rows : List RawFxRow) : List DQIssue :=
  if dup_ok (rows.filterMap (fun r =>
      match r.date, r.from_currency, r.to_currency with
      | some d, some f, some t => some (d, f, t)
      | _, _, _ => none))
  then [] else [⟨"fx_rates", none, none, dup_error "[date, from_currency, to_currency]" "fx_rates"⟩]

def rawSaleTyped (r : RawSaleRow) : Option SaleRow :=
  match r.date, r.entity, r.invoice_id, r.account_code, r.currency, r.amount with
  | some d, some e, some i, some a, some c, some m => some ⟨d, e, i, a, c, m, r.description⟩
  | _, _, _, _, _, _ => none

def rawExpenseTyped (r : RawExpenseRow) : Option ExpenseRow :=
  match r.date, r.entity, r.bill_id, r.account_code, r.currency, r.amount with
  | some d, some e, some i, some a, some c, some m => some ⟨d, e, i, a, c, m, r.description⟩
  | _, _, _, _, _, _ => none

def rawPayrollTyped (r : RawPayrollRow) : Option PayrollRow :=
  match r.month, r.entity, r.employee_id, r.currency, r.gross, r.deductions, r.net with
  | some mo, some e, some i, some c, some g, some d, some n => some ⟨mo, e, i, c, g, d, n⟩
  | _, _, _, _, _, _, _ => none

def rawInventoryTyped (r : RawInventoryRow) : Option InventoryRow :=
  match r.date, r.entity, r.sku, r.movement_type, r.qty, r.unit_cost, r.currency with
  | some d, some e, some s, some t, some q, some u, some c => some ⟨d, e, s, t, q, u, c⟩
  | _, _, _, _, _, _, _ => none

def rawFxTyped (r : RawFxRow) : Option FxRow :=
  match r.date, r.from_currency, r.to_currency, r.rate with
  | some d, some f, some t, some q => some ⟨d, f, t, q⟩
  | _, _, _, _ => none

/-- `validate_or_collect(sales, sales_schema(...), "sales", issues)`:
pandera's lazy validation collects every violation; the frame validates
(and is returned) exactly when no check fails, otherwise `None` comes
back and the failure cases are appended to the issue list. -/
def validate_sales (allowed : List String) (rows : List RawSaleRow) :
    Option (List SaleRow) × List DQIssue :=
  let issues := indexedIssues (raw_sale_issues allowed) 0 rows ++ sales_table_issues rows
  if issues.isEmpty then
    match rows.mapM rawSaleTyped with
    | some ts => (some ts, [])
    | none => (none, [])
  else (none, issues)

/-- `validate_or_collect` on the expenses frame. -/
def validate_expenses (allowed : List String) (rows : List RawExpenseRow) :
    Option (List ExpenseRow) × List DQIssue :=
  let issues := indexedIssues (raw_expense_issues allowed) 0 rows ++ expenses_table_issues rows
  if issues.isEmpty then
    match rows.mapM rawExpenseTyped with
    | some ts => (some ts, [])
    | none => (none, [])
  else (none, issues)

/-- `validate_or_collect` on the payroll frame. -/
def validate_payroll (allowed : List String) (rows : List RawPayrollRow) :
    Option (List PayrollRow) × List DQIssue :=
  let issues := indexedIssues (raw_payroll_issues allowed) 0 rows ++ payroll_table_issues rows
  if issues.isEmpty then
    match rows.mapM rawPayrollTyped with
    | some ts => (some ts, [])
    | none => (none, [])
  else (none, issues)

/-- `validate_or_collect` on the inventory frame (no whole-table check). -/
def validate_inventory (allowed : List String) (rows : List RawInventoryRow) :
    Option (List InventoryRow) × List DQIssue :=
  let issues := indexedIssues (raw_inventory_issues allowed) 0 rows
  if issues.isEmpty then
    match rows.mapM rawInventoryTyped with
    | some ts => (some ts, [])
    | none => (none, [])
  else (none, issues)

/-- `validate_or_collect` on the fx frame. -/
def validate_fx (allowed : List String) (base : String) (rows : List RawFxRow) :
    Option (List FxRow) × List DQIssue :=
  let issues := indexedIssues (raw_fx_issues allowed base) 0 rows ++ fx_table_issues rows
  if issues.isEmpty then
    match rows.mapM rawFxTyped with
    | some ts => (some ts, [])
    | none => (none, [])
  else (none, issues)

/-! ## transform.py -/

/-- `build_dim_accounts`: copy of the chart of accounts (the
`astype(str)` on already-string codes is the identity here). -/
def build_dim_accounts (chart_of_accounts : List DimAccount) : List DimAccount :=
  chart_of_accounts

/-- `fx_to_base`: keep only rates whose target is the base currency
(the `.dt.date` normalisation is the identity on day-precision dates). -/
def fx_to_base (fx_rates : List FxRow) (base_currency : String) : List FxRow :=
  fx_rates.filter (fun f => f.to_currency == base_currency)

/-- A row of the concatenated pre-conversion ledger built inside
`to_fact_transactions` (date, entity, source, document_id, account_code,
currency, amount, description). -/
structure DraftRow where
  date : Date
  entity : String
  source : String
  document_id : String
  account_code : String
  currency : String
  amount : ℚ
  description : Option String
deriving DecidableEq

/-- A ledger row after `add_fx_amount_base` added `rate` and
`amount_base`. -/
structure FactRow where
  date : Date
  entity : String
  source : String
  document_id : String
  account_code : String
  currency : String
  amount : ℚ
  rate : ℚ
  amount_base : ℚ
  description : Option String
deriving DecidableEq

/-- Forget the conversion columns of a `FactRow`. -/
def FactRow.toDraft (f : FactRow) : DraftRow :=
  ⟨f.date, f.entity, f.source, f.document_id, f.account_code, f.currency, f.amount, f.description⟩

/-- The fx rows matching one ledger row's (date, currency) join key. -/
def fxMatches (fx : List FxRow) (d : Date) (c : String) : List FxRow :=
  fx.filter (fun f => f.date == d && f.from_currency == c)

/-- The left merge of `add_fx_amount_base`: each ledger row pairs with
every fx row sharing its (date, currency) key, or with a null rate when
none matches. Matches the source whenever the merge preserves the row
count (each key matched at most once), which is the regime of every
theorem below; on a duplicated key pandas would duplicate the row in the
merge and then fail to align the pre-merge boolean mask. -/
def leftMerge (fx : List FxRow) : List DraftRow → List (DraftRow × Option ℚ)
  | [] => []
  | r :: rs =>
      (match fxMatches fx r.date r.currency with
       | [] => [(r, none)]
       | ms => ms.map (fun f => (r, some f.rate))) ++ leftMerge fx rs

/-- The masked rate assignment: rows already in the base currency keep
the pre-seeded rate 1.0, the others take the merged rate (possibly null). -/
def applyRate (base : String) (p : DraftRow × Option ℚ) : DraftRow × Option ℚ :=
  if p.1.currency == base then (p.1, some 1) else p

/-- Attach a resolved rate: `amount_base = (amount * rate).round(2)`. -/
def mkFact (r : DraftRow) (q : ℚ) : FactRow :=
  ⟨r.date, r.entity, r.source, r.document_id, r.account_code, r.currency,
   r.amount, q, round2 (r.amount * q), r.description⟩

/-- The merged frame of `add_fx_amount_base`: the left merge runs only
when some row needs conversion (`if mask.any()`), otherwise every null
merge rate stands in for the absent merge columns. -/
def mergedRates (rows : List DraftRow) (fx : List FxRow) (base : String) :
    List (DraftRow × Option ℚ) :=
  if rows.any (fun r => r.currency != base) then leftMerge fx rows
  else rows.map (fun r => (r, (none : Option ℚ)))

/-- The merged frame after the masked rate assignment. -/
def withRates (rows : List DraftRow) (fx : List FxRow) (base : String) :
    List (DraftRow × Option ℚ) :=
  (mergedRates rows fx base).map (applyRate base)

/-- `add_fx_amount_base(df, fx, base_currency)`: seed rate 1.0, left-merge
the non-trivial case, and fail with the distinct missing (date, currency)
pairs when any rate is still null. -/
def add_fx_amount_base (rows : List DraftRow) (fx : List FxRow) (base : String) :
    Except (List (Date × String)) (List FactRow) :=
  if (withRates rows fx base).any (fun p => p.2.isNone) then
    Except.error (firstDedup
      (((withRates rows fx base).filter (fun p => p.2.isNone)).map
        (fun p => (p.1.date, p.1.currency))))
  else
    Except.ok ((withRates rows fx base).map (fun p => mkFact p.1 (p.2.getD 1)))

/-- Sales block of `to_fact_transactions`. -/
def saleToDraft (s : SaleRow) : DraftRow :=
  ⟨s.date, s.entity, "sales", s.invoice_id, s.account_code, s.currency, s.amount, s.description⟩

/-- Expenses block: the amount is negated. -/
def expenseToDraft (e : ExpenseRow) : DraftRow :=
  ⟨e.date, e.entity, "expenses", e.bill_id, e.account_code, e.currency, -e.amount, e.description⟩

/-- Payroll block: date synthesised as the month's last day, fixed
account code, negated net pay. -/
def payrollToDraft (p : PayrollRow) : DraftRow :=
  ⟨monthEnd p.month, p.entity, "payroll", p.employee_id ++ "_" ++ monthStr p.month,
   "61000001", p.currency, -p.net, some "Payroll net"⟩

/-- Inventory account mapping `{"issue": "50000001", "receipt": "10000001",
"adjustment": "10000001"}` (validated movement types only reach here). -/
def invAccount (t : String) : String := if t == "issue" then "50000001" else "10000001"

/-- Inventory amount: `(qty * unit_cost).round(2)`, negated for issues. -/
def invAmount (i : InventoryRow) : ℚ :=
  let a := round2 (i.qty * i.unit_cost)
  if i.movement_type == "issue" then -a else a

/-- Inventory block of `to_fact_transactions`. -/
def inventoryToDraft (i : InventoryRow) : DraftRow :=
  ⟨i.date, i.entity, "inventory", i.sku ++ "_" ++ dateStr i.date,
   invAccount i.movement_type, i.currency, invAmount i,
   some (i.movement_type ++ " " ++ i.sku)⟩

def strLe (a b : String) : Bool := a == b || decide (a < b)

/-- Sort key order of `fact.sort_values(["date", "entity", "source",
"document_id"])`. -/
def factLe (f g : FactRow) : Bool :=
  if dateKey f.date < dateKey g.date then true
  else if dateKey g.date < dateKey f.date then false
  else if f.entity == g.entity then
    (if f.source == g.source then strLe f.document_id g.document_id
     else decide (f.source < g.source))
  else decide (f.entity < g.entity)

def FactOrd (f g : FactRow) : Prop := factLe f g = true

instance : DecidableRel FactOrd := fun f g => instDecidableEqBool (factLe f g) true

/-- Curated ledger row, `txn_id` derived after sorting. -/
structure LedgerRow where
  txn_id : String
  date : Date
  entity : String
  source : String
  document_id : String
  account_code : String
  currency : String
  amount : ℚ
  rate : ℚ
  amount_base : ℚ
  description : Option String
deriving DecidableEq

/-- `txn_id = entity + "|" + source + "|" + document_id`. -/
def withTxn (f : FactRow) : LedgerRow :=
  ⟨f.entity ++ "|" ++ f.source ++ "|" ++ f.document_id,
   f.date, f.entity, f.source, f.document_id, f.account_code, f.currency,
   f.amount, f.rate, f.amount_base, f.description⟩

/-- The concatenation `pd.concat([s, e, p, inv])` of the four mapped
source blocks, in source order. -/
def draftsOf (sales : List SaleRow) (expenses : List ExpenseRow)
    (payroll : List PayrollRow) (inventory : List InventoryRow) : List DraftRow :=
  sales.map saleToDraft ++ expenses.map expenseToDraft ++
    payroll.map payrollToDraft ++ inventory.map inventoryToDraft

/-- `to_fact_transactions`: concatenate the four source blocks, convert
currencies, sort, derive `txn_id`. The source sorts with pandas's default
(unstable) quicksort; insertion sort is one concrete instance of that
contract and every property proved below is permutation-invariant. -/
def to_fact_transactions (sales : List SaleRow) (expenses : List ExpenseRow)
    (payroll : List PayrollRow) (inventory : List InventoryRow)
    (fx : List FxRow) (base_currency : String) :
    Except (List (Date × String)) (List LedgerRow) :=
  match add_fx_amount_base (draftsOf sales expenses payroll inventory) fx base_currency with
  | Except.error ps => Except.error ps
  | Except.ok facts => Except.ok ((facts.insertionSort FactOrd).map withTxn)

/-- Left join of a ledger row to its account classification (the
reference chart of accounts keys `account_code` uniquely, so the merge is
a lookup of the first matching dimension row). -/
def lookupType (dim : List DimAccount) (code : String) : Option String :=
  (dim.find? (fun a => a.account_code == code)).map (fun a => a.account_type)

def monthOf (d : Date) : Month := ⟨d.y, d.m⟩

/-- One cell of the pivoted KPI table: summed `amount_base` of the ledger
rows of this entity and month classified with account type `t`. -/
def kpiCell (fact : List LedgerRow) (dim : List DimAccount)
    (e : String) (mo : Month) (t : String) : ℚ :=
  ((fact.filter (fun f =>
      f.entity == e && monthOf f.date == mo && lookupType dim f.account_code == some t)).map
    (fun f => f.amount_base)).sum

/-- Index keys of the pivoted KPI table: pandas `pivot_table` silently
drops rows whose `columns` key (the joined `account_type`) is NaN, so an
(entity, month) appears only if some of its rows are classified. -/
def kpiKeys (fact : List LedgerRow) (dim : List DimAccount) : List (String × Month) :=
  firstDedup ((fact.filter (fun f => (lookupType dim f.account_code).isSome)).map
    (fun f => (f.entity, monthOf f.date)))

/-- Column labels of the pivoted KPI table: the distinct non-null account
types present. -/
def kpiTypes (fact : List LedgerRow) (dim : List DimAccount) : List String :=
  firstDedup (fact.filterMap (fun f => lookupType dim f.account_code))

/-- Column read-back with the 0.0 default that
`if col not in wide.columns: wide[col] = 0.0` and `fill_value=0` give. -/
def getCol (cells : List (String × ℚ)) (c : String) : ℚ :=
  ((cells.find? (fun p => p.1 == c)).map Prod.snd).getD 0

def monthKey (mo : Month) : Nat := mo.y * 100 + mo.m

def keyLe (a b : String × Month) : Bool :=
  if a.1 == b.1 then decide (monthKey a.2 ≤ monthKey b.2) else decide (a.1 < b.1)

def KeyOrd (a b : String × Month) : Prop := keyLe a b = true

instance : DecidableRel KeyOrd := fun a b => instDecidableEqBool (keyLe a b) true

def StrOrd (a b : String) : Prop := strLe a b = true

instance : DecidableRel StrOrd := fun a b => instDecidableEqBool (strLe a b) true

/-- One output row of `kpi_monthly`. -/
structure KpiRow where
  entity : String
  month : Month
  cells : List (String × ℚ)
  gross_profit : ℚ
  operating_profit : ℚ
deriving DecidableEq

/-- `kpi_monthly`: group the classified ledger by (entity, month,
account_type), pivot the types into columns, default the three profit
inputs to 0, and derive the profit columns. -/
def kpi_monthly (fact : List LedgerRow) (dim_accounts : List DimAccount) : List KpiRow :=
  let cols := (kpiTypes fact dim_accounts).insertionSort StrOrd
  ((kpiKeys fact dim_accounts).insertionSort KeyOrd).map (fun km =>
    let cells := cols.map (fun t => (t, kpiCell fact dim_accounts km.1 km.2 t))
    let gp := round2 (getCol cells "Revenue" + getCol cells "COGS")
    ⟨km.1, km.2, cells, gp, round2 (gp + getCol cells "Expense")⟩)

/-! ## pipeline.py -/

/-- The critical check patterns of `_tag_severity`. -/
def critical_checks : List String :=
  ["dtype", "required", "Duplicates found", "Payroll identity"]

/-- `_tag_severity` on one exception row: severity ERROR when the check
string contains (case-insensitively) one of the critical patterns, else
WARN. -/
def tag_severity (check : String) : String :=
  if critical_checks.any (fun p => containsCI check p) then "ERROR" else "WARN"

/-- The five output artifacts of a run, in the order the source writes
them. -/
inductive Artifact
  | dqExceptions
  | dqSummary
  | factTransactions
  | dimAccounts
  | kpiMonthly
deriving DecidableEq

/-- The ways `run_month` can raise after loading succeeded. `noneCrash`
is the Python `TypeError`/`AttributeError` raised when a frame for which
`validate_or_collect` returned `None` is subscripted downstream. -/
inductive RunError
  | configError
  | dqAbort
  | noneCrash
  | missingFx (pairs : List (Date × String))
deriving DecidableEq

/-- Observable outcome of `run_month`: which files were written, the
curated payloads (when produced), and the raised error if any. -/
structure RunResult where
  written : List Artifact
  fact : Option (List LedgerRow)
  kpi : Option (List KpiRow)
  outcome : Option RunError
deriving DecidableEq

/-- The five raw input frames plus the reference chart of accounts, as
loaded by `run_month` (file IO abstracted away). -/
structure RunInput where
  coa : List DimAccount
  sales : List RawSaleRow
  expenses : List RawExpenseRow
  payroll : List RawPayrollRow
  inventory : List RawInventoryRow
  fx_rates : List RawFxRow
deriving DecidableEq

/-- `_month_window` membership: `start <= date < start + MonthBegin(1)`. -/
def in_month_window (mo : Month) (d : Date) : Bool :=
  decide (dateKey (monthStart mo) ≤ dateKey d) &&
  decide (dateKey d < dateKey (monthStart (nextMonth mo)))

/-- The concatenated DQ issue list of one run (the `issues` list of
`run_month` flattened; each appended frame is nonempty, so the flat list
is nonempty iff the Python list is truthy). -/
def runIssues (settings : Settings) (inp : RunInput) : List DQIssue :=
  (validate_sales settings.allowed_currencies inp.sales).2 ++
  (validate_expenses settings.allowed_currencies inp.expenses).2 ++
  (validate_payroll settings.allowed_currencies inp.payroll).2 ++
  (validate_inventory settings.allowed_currencies inp.inventory).2 ++
  (validate_fx settings.allowed_currencies settings.base_currency inp.fx_rates).2

/-- The threshold logic of pipeline.py lines 115-122, reached only when
the issue list is nonempty: normalise `fail_on`, reject values outside
{ERROR, WARN, NEVER}, abort on WARN, abort on ERROR when any issue
carries ERROR severity; otherwise continue. -/
def dq_decision (issues : List DQIssue) (fail_on : String) : Option RunError :=
  let fo := strStrip (strUpper fail_on)
  if !((["ERROR", "WARN", "NEVER"] : List String).contains fo) then some RunError.configError
  else if fo == "WARN" then some RunError.dqAbort
  else if fo == "ERROR" && issues.any (fun i => tag_severity i.check == "ERROR") then
    some RunError.dqAbort
  else none

/-- `run_month` (pipeline.py lines 44-161). Loading is given; validation
collects issues; the DQ exceptions and summary files are written in both
branches before any threshold decision; `fail_on` is normalised and
checked only inside the nonempty-issues branch; the month filter, FX
conversion, unification and aggregation follow, and the three curated
parquet files are written last. Subscripting a `None` validated frame
(which is what the remaining stages do whenever any dataset failed
validation) raises `noneCrash`. -/
def run_month (settings : Settings) (month : Month) (inp : RunInput)
    (fail_on : String) : RunResult :=
  let vS := (validate_sales settings.allowed_currencies inp.sales).1
  let vE := (validate_expenses settings.allowed_currencies inp.expenses).1
  let vP := (validate_payroll settings.allowed_currencies inp.payroll).1
  let vI := (validate_inventory settings.allowed_currencies inp.inventory).1
  let vF := (validate_fx settings.allowed_currencies settings.base_currency inp.fx_rates).1
  let issues := runIssues settings inp
  let proceed : RunResult :=
    match vS, vE, vP, vI, vF with
    | some s, some e, some p, some i, some f =>
        let s := s.filter (fun r => in_month_window month r.date)
        let e := e.filter (fun r => in_month_window month r.date)
        let i := i.filter (fun r => in_month_window month r.date)
        let p := p.filter (fun r => r.month == month)
        let fxb := fx_to_base f settings.base_currency
        match to_fact_transactions s e p i fxb settings.base_currency with
        | Except.error ps =>
            ⟨[Artifact.dqExceptions, Artifact.dqSummary], none, none,
             some (RunError.missingFx ps)⟩
        | Except.ok fact =>
            let dim := build_dim_accounts inp.coa
            let kpi := kpi_monthly fact dim
            ⟨[Artifact.dqExceptions, Artifact.dqSummary, Artifact.factTransactions,
              Artifact.dimAccounts, Artifact.kpiMonthly], some fact, some kpi, none⟩
    | _, _, _, _, _ =>
        ⟨[Artifact.dqExceptions, Artifact.dqSummary], none, none,
         some RunError.noneCrash⟩
  if issues.isEmpty then proceed
  else
    match dq_decision issues fail_on with
    | some e => ⟨[Artifact.dqExceptions, Artifact.dqSummary], none, none, some e⟩
    | none => proceed

/-! ## Helper lemmas -/

theorem mem_firstDedupAux [DecidableEq α] (l : List α) (seen : List α) (a : α) :
    a ∈ firstDedupAux seen l ↔ a ∈ l ∧ a ∉ seen := by
  induction l generalizing seen with
  | nil => simp [firstDedupAux]
  | cons x xs ih =>
    by_cases hx : x ∈ seen
    · rw [firstDedupAux, if_pos hx, ih]
      constructor
      · rintro ⟨h1, h2⟩
        exact ⟨List.mem_cons_of_mem _ h1, h2⟩
      · rintro ⟨h1, h2⟩
        rcases List.mem_cons.1 h1 with rfl | h1
        · exact absurd hx h2
        · exact ⟨h1, h2⟩
    · rw [firstDedupAux, if_neg hx]
      simp only [List.mem_cons, ih, not_or]
      constructor
      · rintro (rfl | ⟨h1, h2⟩)
        · exact ⟨Or.inl rfl, hx⟩
        · exact ⟨Or.inr h1, h2.2⟩
      · rintro ⟨rfl | h1, h2⟩
        · exact Or.inl rfl
        · by_cases hax : a = x
          · exact Or.inl hax
          · exact Or.inr ⟨h1, hax, h2⟩

theorem mem_firstDedup [DecidableEq α] (l : List α) (a : α) :
    a ∈ firstDedup l ↔ a ∈ l := by
  rw [firstDedup, mem_firstDedupAux]
  simp

theorem nodup_firstDedupAux [DecidableEq α] (l seen : List α) :
    (firstDedupAux seen l).Nodup := by
  induction l generalizing seen with
  | nil => simp [firstDedupAux]
  | cons x xs ih =>
    by_cases hx : x ∈ seen
    · rw [firstDedupAux, if_pos hx]
      exact ih seen
    · rw [firstDedupAux, if_neg hx]
      refine List.nodup_cons.mpr ⟨?_, ih _⟩
      intro hmem
      exact ((mem_firstDedupAux _ _ _).1 hmem).2 (List.mem_cons_self _ _)

theorem nodup_firstDedup [DecidableEq α] (l : List α) : (firstDedup l).Nodup :=
  nodup_firstDedupAux l []

theorem filter_map_comm (f : α → β) (p : β → Bool) (l : List α) :
    (l.map f).filter p = (l.filter (fun x => p (f x))).map f := by
  induction l with
  | nil => rfl
  | cons x xs ih => by_cases h : p (f x) = true <;> simp [List.filter_cons, h, ih]

theorem filter_filter_of_imp (p q : α → Bool) (h : ∀ x, q x = true → p x = true) (l : List α) :
    (l.filter p).filter q = l.filter q := by
  induction l with
  | nil => rfl
  | cons x xs ih =>
    cases hq : q x
    · cases hp : p x <;> simp [List.filter_cons, hp, hq, ih]
    · have hp := h x hq
      simp [List.filter_cons, hp, hq, ih]

theorem filterMap_filter_isSome (g : α → Option β) (l : List α) :
    (l.filter (fun x => (g x).isSome)).filterMap g = l.filterMap g := by
  induction l with
  | nil => rfl
  | cons x xs ih => cases hg : g x <;> simp [List.filter_cons, List.filterMap_cons, hg, ih]

/-- The (date, from_currency) join keys of an fx lookup. -/
def fxKeys (fx : List FxRow) : List (Date × String) :=
  fx.map (fun f => (f.date, f.from_currency))

theorem fxMatches_eq_nil_iff (fx : List FxRow) (d : Date) (c : String) :
    fxMatches fx d c = [] ↔ (d, c) ∉ fxKeys fx := by
  simp only [fxMatches, fxKeys, List.filter_eq_nil_iff, List.mem_map]
  constructor
  · rintro h ⟨f, hf, heq⟩
    have := h f hf
    rw [Prod.mk.injEq] at heq
    simp [heq.1, heq.2] at this
  · intro h f hf
    simp only [Bool.and_eq_true, beq_iff_eq, not_and]
    rintro rfl rfl
    exact h ⟨f, hf, rfl⟩

theorem applyRate_fst (base : String) (p : DraftRow × Option ℚ) :
    (applyRate base p).1 = p.1 := by
  rw [applyRate]
  split <;> rfl

/-- The rows left without a rate by the merge and mask assignment are
exactly the non-base-currency rows with no fx match, in order. -/
theorem leftMerge_missing (base : String) (fx : List FxRow) (rows : List DraftRow) :
    (((leftMerge fx rows).map (applyRate base)).filter (fun q => q.2.isNone)).map
        (fun q => (q.1.date, q.1.currency)) =
    (rows.filter (fun r =>
        r.currency != base && (fxMatches fx r.date r.currency).isEmpty)).map
        (fun r => (r.date, r.currency)) := by
  induction rows with
  | nil => rfl
  | cons r rs ih =>
    rw [leftMerge, List.map_append, List.filter_append, List.map_append, ih, List.filter_cons]
    cases hm : fxMatches fx r.date r.currency with
    | nil =>
      by_cases hb : r.currency = base
      · simp [applyRate, hb, bne_self_eq_false]
      · simp [applyRate, hb, bne_iff_ne]
    | cons f fs =>
      by_cases hb : r.currency = base <;>
        simp [applyRate, hb, List.map_map, Function.comp_def, List.filter_map, List.filter_eq_nil_iff]

/-- When some non-base-currency row has no fx rate for its (date,
currency) pair, `add_fx_amount_base` fails with the distinct list of all
such pairs. -/
theorem add_fx_missing (rows : List DraftRow) (fx : List FxRow) (base : String)
    (h : ∃ r ∈ rows, r.currency ≠ base ∧ (r.date, r.currency) ∉ fxKeys fx) :
    add_fx_amount_base rows fx base =
      Except.error (firstDedup ((rows.filter (fun r =>
        r.currency != base && (fxMatches fx r.date r.currency).isEmpty)).map
        (fun r => (r.date, r.currency)))) := by
  obtain ⟨r0, hr0, hc0, hk0⟩ := h
  have hm0 : fxMatches fx r0.date r0.currency = [] := (fxMatches_eq_nil_iff _ _ _).mpr hk0
  have hmask : rows.any (fun r => r.currency != base) = true :=
    List.any_eq_true.mpr ⟨r0, hr0, by simpa [bne_iff_ne] using hc0⟩
  have hW : withRates rows fx base = (leftMerge fx rows).map (applyRate base) := by
    rw [withRates, mergedRates, if_pos hmask]
  have hmem : (r0.date, r0.currency) ∈ (rows.filter (fun r =>
      r.currency != base && (fxMatches fx r.date r.currency).isEmpty)).map
      (fun r => (r.date, r.currency)) :=
    List.mem_map.mpr ⟨r0, List.mem_filter.mpr ⟨hr0, by simp [bne_iff_ne, hc0, hm0]⟩, rfl⟩
  rw [← leftMerge_missing base fx rows] at hmem
  obtain ⟨q, hq, _⟩ := List.mem_map.1 hmem
  have hq2 := List.mem_filter.1 hq
  have hnone : (withRates rows fx base).any (fun p => p.2.isNone) = true := by
    rw [hW]
    exact List.any_eq_true.mpr ⟨q, hq2.1, hq2.2⟩
  rw [add_fx_amount_base, if_pos hnone, hW, leftMerge_missing]

/-- Rounding fixes integer-cent amounts. -/
theorem round2_cents (n : ℤ) : round2 ((n : ℚ) / 100) = (n : ℚ) / 100 := by
  have h1 : ((n : ℚ) / 100) * 100 = (n : ℚ) := by
    field_simp
  have h2 : rhe (n : ℚ) = n := by
    rw [rhe, Int.floor_intCast]
    norm_num
  rw [round2, h1, h2]

/-- Rounding fixes integers. -/
theorem rhe_intCast (n : ℤ) : rhe (n : ℚ) = n := by
  rw [rhe, Int.floor_intCast]
  norm_num

/-- Under a duplicate-free fx key set, the left merge is a per-row lookup
of the at-most-one matching rate. -/
theorem fxMatches_nil_or_singleton (fx : List FxRow) (h : (fxKeys fx).Nodup)
    (d : Date) (c : String) :
    fxMatches fx d c = [] ∨ ∃ f, fxMatches fx d c = [f] := by
  induction fx with
  | nil => exact Or.inl rfl
  | cons f fs ih =>
    rw [fxKeys, List.map_cons, List.nodup_cons] at h
    obtain ⟨hhead, htail⟩ := h
    by_cases hfd : (f.date == d && f.from_currency == c) = true
    · have hkey : (d, c) ∉ fxKeys fs := by
        simp only [Bool.and_eq_true, beq_iff_eq] at hfd
        rw [← hfd.1, ← hfd.2]
        exact fun hc => hhead hc
      have htm : fxMatches fs d c = [] := (fxMatches_eq_nil_iff _ _ _).mpr hkey
      refine Or.inr ⟨f, ?_⟩
      simp only [fxMatches, List.filter_cons, hfd, if_true]
      simpa [fxMatches] using htm
    · have := ih htail
      simpa [fxMatches, List.filter_cons, hfd] using this

theorem leftMerge_of_nodup (fx : List FxRow) (rows : List DraftRow)
    (h : (fxKeys fx).Nodup) :
    leftMerge fx rows = rows.map (fun r =>
      (r, ((fxMatches fx r.date r.currency).head?).map FxRow.rate)) := by
  induction rows with
  | nil => rfl
  | cons r rs ih =>
    rw [leftMerge, ih]
    rcases fxMatches_nil_or_singleton fx h r.date r.currency with hm | ⟨f, hm⟩ <;>
      simp [hm]

/-- A successful conversion means no rate stayed null, and the output is
the rate-assigned frame with `amount_base` appended. -/
theorem add_fx_ok_inv (rows : List DraftRow) (fx : List FxRow) (base : String)
    (facts : List FactRow) (he : add_fx_amount_base rows fx base = Except.ok facts) :
    facts = (withRates rows fx base).map (fun p => mkFact p.1 (p.2.getD 1)) := by
  rw [add_fx_amount_base] at he
  by_cases hn : ((withRates rows fx base).any (fun p => p.2.isNone)) = true
  · rw [if_pos hn] at he
    exact absurd he (by simp)
  · rw [if_neg hn] at he
    exact (Except.ok.inj he).symm

/-- Every converted record with the base currency carries rate 1.0 and a
base amount that is its own amount rounded to cents (no uniqueness
assumption on the fx keys is needed). -/
theorem add_fx_ok_base_fields (rows : List DraftRow) (fx : List FxRow) (base : String)
    (facts : List FactRow) (he : add_fx_amount_base rows fx base = Except.ok facts) :
    ∀ f ∈ facts, f.currency = base → f.rate = 1 ∧ f.amount_base = round2 f.amount := by
  have hfacts := add_fx_ok_inv rows fx base facts he
  intro f hf hbase
  rw [hfacts] at hf
  obtain ⟨p, hp, hfp⟩ := List.mem_map.1 hf
  rw [withRates] at hp
  obtain ⟨q, _, hqp⟩ := List.mem_map.1 hp
  subst hfp
  subst hqp
  by_cases hb : (q.1.currency == base) = true
  · rw [applyRate, if_pos hb]
    refine ⟨rfl, ?_⟩
    show round2 (q.1.amount * (1 : ℚ)) = round2 q.1.amount
    rw [mul_one]
  · rw [applyRate, if_neg hb] at hbase ⊢
    exact absurd (beq_iff_eq.mpr hbase) hb

/-- Whichever branch the mask takes, the merged frame under duplicate-free
fx keys is a per-row map with the row kept as first component. -/
theorem mergedRates_eq_map (rows : List DraftRow) (fx : List FxRow) (base : String)
    (h : (fxKeys fx).Nodup) :
    ∃ w : DraftRow → DraftRow × Option ℚ,
      (∀ r, (w r).1 = r) ∧ mergedRates rows fx base = rows.map w := by
  rw [mergedRates]
  by_cases hmask : (rows.any (fun r => r.currency != base)) = true
  · rw [if_pos hmask]
    exact ⟨_, fun r => rfl, leftMerge_of_nodup fx rows h⟩
  · rw [if_neg hmask]
    exact ⟨_, fun r => rfl, rfl⟩

/-- Under duplicate-free fx keys, a successful conversion is a per-row
map preserving every pre-conversion field, with rate 1.0 on
base-currency rows. -/
theorem add_fx_ok_map (rows : List DraftRow) (fx : List FxRow) (base : String)
    (facts : List FactRow) (h : (fxKeys fx).Nodup)
    (he : add_fx_amount_base rows fx base = Except.ok facts) :
    ∃ F : DraftRow → FactRow,
      facts = rows.map F ∧
      (∀ r, (F r).toDraft = r) ∧
      (∀ r, r.currency = base →
        (F r).rate = 1 ∧ (F r).amount_base = round2 r.amount) := by
  obtain ⟨w, hw, hM⟩ := mergedRates_eq_map rows fx base h
  have hfacts := add_fx_ok_inv rows fx base facts he
  rw [withRates, hM, List.map_map, List.map_map] at hfacts
  refine ⟨_, hfacts, fun r => ?_, fun r hbase => ?_⟩
  · show (mkFact (applyRate base (w r)).1 _).toDraft = r
    have : (mkFact (applyRate base (w r)).1 ((applyRate base (w r)).2.getD 1)).toDraft =
        (applyRate base (w r)).1 := rfl
    rw [this, applyRate_fst, hw]
  · have happ : applyRate base (w r) = ((w r).1, some 1) := by
      rw [applyRate, if_pos]
      rw [hw]
      exact beq_iff_eq.mpr hbase
    show (mkFact (applyRate base (w r)).1 ((applyRate base (w r)).2.getD 1)).rate = 1 ∧
      (mkFact (applyRate base (w r)).1 ((applyRate base (w r)).2.getD 1)).amount_base =
        round2 r.amount
    rw [happ, hw]
    refine ⟨rfl, ?_⟩
    show round2 (r.amount * (1 : ℚ)) = round2 r.amount
    rw [mul_one]

/-- `monthEnd` lands on the last calendar day of its month: it stays in
the month and its calendar successor is the first of the next month. -/
theorem monthEnd_last_day (mo : Month) (h1 : 1 ≤ mo.m) (h2 : mo.m ≤ 12) :
    (monthEnd mo).y = mo.y ∧ (monthEnd mo).m = mo.m ∧
    (monthEnd mo).d = daysInMonth mo.y mo.m ∧
    nextDay (monthEnd mo) = monthStart (nextMonth mo) := by
  refine ⟨rfl, rfl, rfl, ?_⟩
  show nextDay ⟨mo.y, mo.m, daysInMonth mo.y mo.m⟩ = monthStart (nextMonth mo)
  rw [nextDay]
  rw [if_neg (lt_irrefl (daysInMonth mo.y mo.m))]
  by_cases hm : mo.m < 12
  · rw [if_pos hm, nextMonth, if_neg (by simpa using (by omega : mo.m ≠ 12)), monthStart]
  · have h12 : mo.m = 12 := by omega
    rw [if_neg hm, nextMonth, if_pos (by simpa using h12), monthStart]

/-- Pre-filtering away the rows with unclassifiable account codes leaves
the KPI index keys unchanged. -/
theorem kpiKeys_filter (fact : List LedgerRow) (dim : List DimAccount) :
    kpiKeys (fact.filter (fun f => (lookupType dim f.account_code).isSome)) dim =
      kpiKeys fact dim := by
  rw [kpiKeys, kpiKeys, filter_filter_of_imp _ _ (fun x hx => hx)]

/-- Pre-filtering away unclassifiable rows leaves the KPI column labels
unchanged. -/
theorem kpiTypes_filter (fact : List LedgerRow) (dim : List DimAccount) :
    kpiTypes (fact.filter (fun f => (lookupType dim f.account_code).isSome)) dim =
      kpiTypes fact dim := by
  rw [kpiTypes, kpiTypes, filterMap_filter_isSome]

/-- Pre-filtering away unclassifiable rows leaves every KPI cell sum
unchanged. -/
theorem kpiCell_filter (fact : List LedgerRow) (dim : List DimAccount)
    (e : String) (mo : Month) (t : String) :
    kpiCell (fact.filter (fun f => (lookupType dim f.account_code).isSome)) dim e mo t =
      kpiCell fact dim e mo t := by
  rw [kpiCell, kpiCell, filter_filter_of_imp]
  intro x hx
  simp only [Bool.and_eq_true, beq_iff_eq] at hx
  simp [hx.2]

/-- `dq_decision` on the literal threshold WARN always aborts. -/
theorem dq_decision_warn (issues : List DQIssue) :
    dq_decision issues "WARN" = some RunError.dqAbort := rfl

/-- `dq_decision` on the literal threshold ERROR aborts when some issue
carries ERROR severity. -/
theorem dq_decision_error (issues : List DQIssue)
    (hany : (issues.any (fun i => tag_severity i.check == "ERROR")) = true) :
    dq_decision issues "ERROR" = some RunError.dqAbort := by
  have h0 : dq_decision issues "ERROR" =
      (if (issues.any fun i => tag_severity i.check == "ERROR") = true then
        some RunError.dqAbort else none) := rfl
  rw [h0, if_pos hany]

/-- `dq_decision` rejects any normalised threshold outside the valid set. -/
theorem dq_decision_invalid (issues : List DQIssue) (fail_on : String)
    (h : strStrip (strUpper fail_on) ∉ (["ERROR", "WARN", "NEVER"] : List String)) :
    dq_decision issues fail_on = some RunError.configError := by
  rw [dq_decision]
  have hc : (["ERROR", "WARN", "NEVER"] : List String).contains (strStrip (strUpper fail_on)) =
      false := by
    cases hc0 : (["ERROR", "WARN", "NEVER"] : List String).contains (strStrip (strUpper fail_on))
    · rfl
    · exact absurd (List.mem_of_elem_eq_true hc0) h
  rw [hc]
  rfl

/-- With a nonempty issue list, `run_month` writes exactly the two DQ
artifacts and surfaces whatever `dq_decision` decides. -/
theorem run_month_issues (settings : Settings) (month : Month) (inp : RunInput)
    (fail_on : String) (hne : runIssues settings inp ≠ []) (e : RunError)
    (hd : dq_decision (runIssues settings inp) fail_on = some e) :
    run_month settings month inp fail_on =
      ⟨[Artifact.dqExceptions, Artifact.dqSummary], none, none, some e⟩ := by
  have hEmpty : (runIssues settings inp).isEmpty = false := by
    cases h : runIssues settings inp with
    | nil => exact absurd h hne
    | cons a l => rfl
  simp only [run_month]
  rw [hEmpty]
  simp only [Bool.false_eq_true, if_false]
  rw [hd]

/-- A successful unification is a sort-and-tag of a successful
conversion of the concatenated drafts. -/
theorem to_fact_ok_inv (sales : List SaleRow) (expenses : List ExpenseRow)
    (payroll : List PayrollRow) (inventory : List InventoryRow)
    (fx : List FxRow) (base : String) (ledger : List LedgerRow)
    (he : to_fact_transactions sales expenses payroll inventory fx base = Except.ok ledger) :
    ∃ facts, add_fx_amount_base (draftsOf sales expenses payroll inventory) fx base =
      Except.ok facts ∧ ledger = (facts.insertionSort FactOrd).map withTxn := by
  rw [to_fact_transactions] at he
  cases ha : add_fx_amount_base (draftsOf sales expenses payroll inventory) fx base with
  | error ps =>
    rw [ha] at he
    exact absurd he (by simp)
  | ok facts =>
    rw [ha] at he
    exact ⟨facts, rfl, (Except.ok.inj he).symm⟩

/-- Base-currency invariants carry from conversion through sorting and
`txn_id` tagging to the final ledger. -/
theorem to_fact_ok_base_fields (sales : List SaleRow) (expenses : List ExpenseRow)
    (payroll : List PayrollRow) (inventory : List InventoryRow)
    (fx : List FxRow) (base : String) (ledger : List LedgerRow)
    (he : to_fact_transactions sales expenses payroll inventory fx base = Except.ok ledger) :
    ∀ l ∈ ledger, l.currency = base → l.rate = 1 ∧ l.amount_base = round2 l.amount := by
  obtain ⟨facts, ha, hl⟩ := to_fact_ok_inv sales expenses payroll inventory fx base ledger he
  subst hl
  intro l hl hbase
  obtain ⟨f, hf, rfl⟩ := List.mem_map.1 hl
  have hf2 : f ∈ facts := (List.perm_insertionSort FactOrd facts).subset hf
  exact add_fx_ok_base_fields _ _ _ _ ha f hf2 hbase

/-- Distinct (date, from_currency, to_currency) keys with a constant
target currency give distinct (date, from_currency) join keys. -/
theorem nodup_pairs_of_triples (base : String) (l : List FxRow)
    (hall : ∀ f ∈ l, f.to_currency = base)
    (hnd : (l.map (fun f => (f.date, f.from_currency, f.to_currency))).Nodup) :
    (l.map (fun f => (f.date, f.from_currency))).Nodup := by
  induction l with
  | nil => simp
  | cons f fs ih =>
    rw [List.map_cons, List.nodup_cons] at hnd ⊢
    obtain ⟨hhead, htail⟩ := hnd
    refine ⟨?_, ih (fun g hg => hall g (List.mem_cons_of_mem _ hg)) htail⟩
    intro hmem
    obtain ⟨g, hg, heq⟩ := List.mem_map.1 hmem
    apply hhead
    refine List.mem_map.mpr ⟨g, hg, ?_⟩
    rw [Prod.mk.injEq] at heq
    rw [heq.1, heq.2, hall g (List.mem_cons_of_mem _ hg),
      hall f (List.mem_cons_self _ _)]

/-- The payroll-sourced rows of a successful ledger are, up to the output
sort, exactly one row per validated payroll row, with the synthesised
date, document id, account code and negated net. -/
theorem payroll_ledger_perm (sales : List SaleRow) (expenses : List ExpenseRow)
    (payroll : List PayrollRow) (inventory : List InventoryRow)
    (fx : List FxRow) (base : String) (ledger : List LedgerRow)
    (hn : (fxKeys fx).Nodup)
    (he : to_fact_transactions sales expenses payroll inventory fx base = Except.ok ledger) :
    ((ledger.filter (fun l => l.source == "payroll")).map
        (fun l => (l.date, l.entity, l.document_id, l.account_code, l.amount))).Perm
      (payroll.map (fun p => (monthEnd p.month, p.entity,
        p.employee_id ++ "_" ++ monthStr p.month, ("61000001" : String), -p.net))) := by
  obtain ⟨facts, ha, hl⟩ := to_fact_ok_inv sales expenses payroll inventory fx base ledger he
  obtain ⟨F, hfacts, hFd, _⟩ := add_fx_ok_map _ _ _ _ hn ha
  subst hl
  have hsort := (List.perm_insertionSort FactOrd facts).map withTxn
  have hfil := (hsort.filter (fun l => l.source == "payroll")).map
    (fun l => (l.date, l.entity, l.document_id, l.account_code, l.amount))
  refine hfil.trans ?_
  have heq : ((facts.map withTxn).filter (fun l => l.source == "payroll")).map
      (fun l => (l.date, l.entity, l.document_id, l.account_code, l.amount)) =
      payroll.map (fun p => (monthEnd p.month, p.entity,
        p.employee_id ++ "_" ++ monthStr p.month, ("61000001" : String), -p.net)) := by
    rw [hfacts, List.map_map, filter_map_comm]
    have hpred : ∀ d ∈ draftsOf sales expenses payroll inventory,
        (((withTxn ∘ F) d).source == "payroll") = (d.source == "payroll") := by
      intro d _
      have h2 : ((F d).toDraft).source = d.source := by rw [hFd d]
      have h1 : ((withTxn ∘ F) d).source = d.source := h2
      rw [h1]
    rw [List.filter_congr hpred]
    rw [draftsOf, List.filter_append, List.filter_append, List.filter_append]
    have hs : (sales.map saleToDraft).filter (fun d => d.source == "payroll") = [] := by
      rw [filter_map_comm]
      simp [saleToDraft]
    have hx : (expenses.map expenseToDraft).filter (fun d => d.source == "payroll") = [] := by
      rw [filter_map_comm]
      simp [expenseToDraft]
    have hv : (inventory.map inventoryToDraft).filter (fun d => d.source == "payroll") = [] := by
      rw [filter_map_comm]
      simp [inventoryToDraft]
    have hp : (payroll.map payrollToDraft).filter (fun d => d.source == "payroll") =
        payroll.map payrollToDraft := by
      rw [filter_map_comm]
      simp [payrollToDraft]
    rw [hs, hx, hv, hp]
    simp only [List.nil_append, List.append_nil]
    rw [List.map_map, List.map_map]
    refine List.map_congr_left ?_
    intro p _
    have h2 : ((F (payrollToDraft p)).toDraft.date, (F (payrollToDraft p)).toDraft.entity,
        (F (payrollToDraft p)).toDraft.document_id, (F (payrollToDraft p)).toDraft.account_code,
        (F (payrollToDraft p)).toDraft.amount) =
        ((payrollToDraft p).date, (payrollToDraft p).entity, (payrollToDraft p).document_id,
          (payrollToDraft p).account_code, (payrollToDraft p).amount) := by
      rw [hFd]
    exact h2
  rw [heq]

/-- With an empty issue list, the `fail_on` argument never influences the
run (in particular it is never validated). -/
theorem run_month_fail_on_irrelevant (settings : Settings) (month : Month)
    (inp : RunInput) (f1 f2 : String) (hempty : runIssues settings inp = []) :
    run_month settings month inp f1 = run_month settings month inp f2 := by
  have hE : (runIssues settings inp).isEmpty = true := by rw [hempty]; rfl
  simp only [run_month]
  rw [hE]
  rfl

/-! ## Claims -/

def sampleSettings : Settings := ⟨"USD", ["USD", "TZS", "EUR"]⟩

/-- All five raw batches empty: each of sales, expenses, payroll and
fx_rates fails its whole-table check, so schema violations are present. -/
def allEmptyInput : RunInput := ⟨[], [], [], [], [], []⟩

/-- Claim C1: the spec says a `fail_on=NEVER` run completes and writes all
five artifacts regardless of schema violations. On the code it does not:
any batch with violations makes `validate_or_collect` return `None`, and
the month-filter stage then subscripts `None` and crashes, leaving only
the two DQ artifacts behind. Evaluated here at a concrete violating
input (every batch empty) with `fail_on="NEVER"`. -/
theorem claim_C1_never_run_crashes_on_invalid_batch :
    runIssues sampleSettings allEmptyInput ≠ [] ∧
    run_month sampleSettings ⟨2025, 12⟩ allEmptyInput "NEVER" =
      ⟨[Artifact.dqExceptions, Artifact.dqSummary], none, none, some RunError.noneCrash⟩ := by
  constructor
  · decide
  · decide

/-- Claim C2: whenever some record needs a conversion rate that the fx
lookup lacks, `add_fx_amount_base` raises one batch-level error whose
pair list enumerates exactly the distinct missing (date, currency) pairs
of the batch — no silent default and no nearby-date fallback can occur,
since membership in the error list is equivalent to exact-key absence. -/
theorem claim_C2_missing_fx_batch_error (rows : List DraftRow) (fx : List FxRow)
    (base : String)
    (h : ∃ r ∈ rows, r.currency ≠ base ∧ (r.date, r.currency) ∉ fxKeys fx) :
    ∃ pairs : List (Date × String),
      add_fx_amount_base rows fx base = Except.error pairs ∧ pairs.Nodup ∧
      ∀ p : Date × String, p ∈ pairs ↔
        ∃ r ∈ rows, r.currency ≠ base ∧ p = (r.date, r.currency) ∧ p ∉ fxKeys fx := by
  refine ⟨_, add_fx_missing rows fx base h, nodup_firstDedup _, fun p => ?_⟩
  rw [mem_firstDedup]
  simp only [List.mem_map, List.mem_filter, Bool.and_eq_true, bne_iff_ne, ne_eq,
    List.isEmpty_iff, fxMatches_eq_nil_iff]
  constructor
  · rintro ⟨r, ⟨hr, hc, hk⟩, rfl⟩
    exact ⟨r, hr, hc, rfl, hk⟩
  · rintro ⟨r, hr, hc, rfl, hk⟩
    exact ⟨r, ⟨hr, hc, hk⟩, rfl⟩

def c2row : DraftRow := ⟨⟨2025, 12, 5⟩, "TLM", "expenses", "B1", "62000001", "EUR", 100, none⟩

/-- Witness for C2 at a concrete EUR record with an empty fx lookup. -/
theorem claim_C2_witness :
    (∃ r ∈ [c2row], r.currency ≠ "USD" ∧ (r.date, r.currency) ∉ fxKeys []) ∧
    ∃ pairs : List (Date × String),
      add_fx_amount_base [c2row] [] "USD" = Except.error pairs ∧ pairs.Nodup ∧
      ∀ p : Date × String, p ∈ pairs ↔
        ∃ r ∈ [c2row], r.currency ≠ "USD" ∧ p = (r.date, r.currency) ∧ p ∉ fxKeys [] :=
  ⟨by decide, claim_C2_missing_fx_batch_error [c2row] [] "USD" (by decide)⟩

/-- Claim C3: when issues exist and the threshold is met (WARN with any
issue, or ERROR with an ERROR-severity issue), `run_month` aborts having
written exactly the two DQ artifacts and none of the curated outputs. -/
theorem claim_C3_threshold_abort (settings : Settings) (month : Month) (inp : RunInput)
    (fail_on : String) (hne : runIssues settings inp ≠ [])
    (hthr : fail_on = "WARN" ∨
      (fail_on = "ERROR" ∧ ∃ i ∈ runIssues settings inp, tag_severity i.check = "ERROR")) :
    run_month settings month inp fail_on =
      ⟨[Artifact.dqExceptions, Artifact.dqSummary], none, none, some RunError.dqAbort⟩ := by
  rcases hthr with rfl | ⟨rfl, i, hi, hsev⟩
  · exact run_month_issues _ _ _ _ hne _ (dq_decision_warn _)
  · exact run_month_issues _ _ _ _ hne _
      (dq_decision_error _ (List.any_eq_true.mpr ⟨i, hi, by simp [hsev]⟩))

/-- Witness for C3: an all-empty input under WARN aborts with only the DQ
artifacts written. -/
theorem claim_C3_witness :
    runIssues sampleSettings allEmptyInput ≠ [] ∧
    run_month sampleSettings ⟨2025, 12⟩ allEmptyInput "WARN" =
      ⟨[Artifact.dqExceptions, Artifact.dqSummary], none, none, some RunError.dqAbort⟩ :=
  ⟨by decide, claim_C3_threshold_abort _ _ _ _ (by decide) (Or.inl rfl)⟩

/-- Claim C4 counterexample: a base-currency record whose amount has three
decimal places (1/8 = 0.125) comes out with amount_base 0.12, which is
not equal to its amount — the claim's "equals its amount exactly" fails. -/
theorem claim_C4_counterexample :
    add_fx_amount_base
        [⟨⟨2025, 12, 5⟩, "TLM", "sales", "INV-1", "40000001", "USD", 1/8, none⟩] [] "USD" =
      Except.ok
        [⟨⟨2025, 12, 5⟩, "TLM", "sales", "INV-1", "40000001", "USD", 1/8, 1, 12/100, none⟩] ∧
    (12 : ℚ)/100 ≠ 1/8 := by
  constructor
  · decide
  · decide

/-- Claim C4 as amended: every record with the base currency gets rate 1.0
and `amount_base = round(amount, 2)`; the two agree exactly whenever the
amount is a whole number of cents. -/
theorem claim_C4_base_currency_rate_one (rows : List DraftRow) (fx : List FxRow)
    (base : String) (facts : List FactRow)
    (he : add_fx_amount_base rows fx base = Except.ok facts) :
    ∀ f ∈ facts, f.currency = base →
      f.rate = 1 ∧ f.amount_base = round2 f.amount ∧
      (∀ n : ℤ, f.amount = (n : ℚ)/100 → f.amount_base = f.amount) := by
  intro f hf hb
  obtain ⟨h1, h2⟩ := add_fx_ok_base_fields rows fx base facts he f hf hb
  exact ⟨h1, h2, fun n hn => by rw [h2, hn, round2_cents]⟩

def c4row : DraftRow := ⟨⟨2025, 12, 5⟩, "TLM", "sales", "INV-2", "40000001", "USD", 25/2, none⟩

def c4fact : FactRow :=
  ⟨⟨2025, 12, 5⟩, "TLM", "sales", "INV-2", "40000001", "USD", 25/2, 1, 25/2, none⟩

/-- Witness for C4 at a concrete cent-aligned base-currency record. -/
theorem claim_C4_witness :
    add_fx_amount_base [c4row] [] "USD" = Except.ok [c4fact] ∧
    (c4fact.rate = 1 ∧ c4fact.amount_base = round2 c4fact.amount ∧
      (∀ n : ℤ, c4fact.amount = (n : ℚ)/100 → c4fact.amount_base = c4fact.amount)) := by
  have he : add_fx_amount_base [c4row] [] "USD" = Except.ok [c4fact] := by decide
  exact ⟨he, claim_C4_base_currency_rate_one _ _ _ _ he c4fact (by decide) (by decide)⟩

def c5pay : PayrollRow := ⟨⟨2025, 12⟩, "TLM", "EMP-001", "USD", 1, 7/8, 1/8⟩

def c5led : LedgerRow :=
  ⟨"TLM|payroll|EMP-001_2025-12", ⟨2025, 12, 31⟩, "TLM", "payroll", "EMP-001_2025-12",
   "61000001", "USD", -(1/8), 1, -(12/100), some "Payroll net"⟩

/-- Claim C5 counterexample: a validated payroll row with net pay 1/8 =
0.125 in the base currency yields amount = -0.125 but amount_base =
-0.12, so `amount_base = -net` fails as stated. -/
theorem claim_C5_counterexample :
    to_fact_transactions [] [] [c5pay] [] [] "USD" = Except.ok [c5led] ∧
    c5led.currency = "USD" ∧ c5pay.net = 1/8 ∧ c5led.amount = -c5pay.net ∧
    c5led.amount_base ≠ -c5pay.net := by
  constructor
  · decide
  · constructor
    · decide
    · constructor
      · decide
      · constructor
        · decide
        · decide

/-- Claim C5 as amended: every validated payroll row becomes exactly one
ledger record (up to the output sort) whose date is `monthEnd` of its
stated month — proved to be the last calendar day: same year and month,
day = daysInMonth, and calendar successor equal to the first of the next
month — whose document_id is employee_id + "_" + month, whose account
code is "61000001", and whose amount is the negated net; on
base-currency rows rate = 1.0 and amount_base = round(amount, 2). -/
theorem claim_C5_payroll_unification (sales : List SaleRow) (expenses : List ExpenseRow)
    (payroll : List PayrollRow) (inventory : List InventoryRow)
    (fx : List FxRow) (base : String) (ledger : List LedgerRow)
    (hn : (fxKeys fx).Nodup)
    (he : to_fact_transactions sales expenses payroll inventory fx base = Except.ok ledger) :
    ((ledger.filter (fun l => l.source == "payroll")).map
        (fun l => (l.date, l.entity, l.document_id, l.account_code, l.amount))).Perm
      (payroll.map (fun p => (monthEnd p.month, p.entity,
        p.employee_id ++ "_" ++ monthStr p.month, ("61000001" : String), -p.net))) ∧
    (∀ l ∈ ledger, l.currency = base → l.rate = 1 ∧ l.amount_base = round2 l.amount) ∧
    (∀ mo : Month, 1 ≤ mo.m → mo.m ≤ 12 →
      (monthEnd mo).y = mo.y ∧ (monthEnd mo).m = mo.m ∧
      (monthEnd mo).d = daysInMonth mo.y mo.m ∧
      nextDay (monthEnd mo) = monthStart (nextMonth mo)) :=
  ⟨payroll_ledger_perm sales expenses payroll inventory fx base ledger hn he,
   to_fact_ok_base_fields sales expenses payroll inventory fx base ledger he,
   fun mo h1 h2 => monthEnd_last_day mo h1 h2⟩

def w5pay : PayrollRow := ⟨⟨2025, 12⟩, "TLM", "EMP-001", "USD", 1000, 100, 900⟩

def w5led : LedgerRow :=
  ⟨"TLM|payroll|EMP-001_2025-12", ⟨2025, 12, 31⟩, "TLM", "payroll", "EMP-001_2025-12",
   "61000001", "USD", -900, 1, -900, some "Payroll net"⟩

/-- Witness for C5 at the spec's example payroll row. -/
theorem claim_C5_witness :
    (fxKeys ([] : List FxRow)).Nodup ∧
    to_fact_transactions [] [] [w5pay] [] [] "USD" = Except.ok [w5led] ∧
    (([w5led].filter (fun l => l.source == "payroll")).map
        (fun l => (l.date, l.entity, l.document_id, l.account_code, l.amount))).Perm
      ([w5pay].map (fun p => (monthEnd p.month, p.entity,
        p.employee_id ++ "_" ++ monthStr p.month, ("61000001" : String), -p.net))) := by
  have he : to_fact_transactions [] [] [w5pay] [] [] "USD" = Except.ok [w5led] := by decide
  exact ⟨by decide, he,
    (claim_C5_payroll_unification [] [] [w5pay] [] [] "USD" [w5led] (by decide) he).1⟩

/-- Claim C6: pandera names the missing/non-nullable-value check
"not_nullable", which matches none of `_tag_severity`'s critical patterns
(dtype, required, Duplicates found, Payroll identity), so a
missing-required-value violation is tagged WARN — contradicting both the
claim and the function's own docstring. The dtype, duplicate-key and
payroll-identity checks are tagged ERROR as documented. -/
theorem claim_C6_missing_required_tagged_warn :
    tag_severity "not_nullable" = "WARN" ∧
    tag_severity "dtype(float64)" = "ERROR" ∧
    tag_severity (dup_error "[entity, invoice_id]" "sales") = "ERROR" ∧
    tag_severity payroll_identity_error = "ERROR" := by
  refine ⟨by decide, by decide, by decide, by decide⟩

/-- Claim C7 as amended: ledger rows whose account code has no match in
the chart of accounts are dropped by the KPI pivot, not bucketed: the
KPI output is unchanged if all such rows are removed beforehand. -/
theorem claim_C7_unclassified_dropped (fact : List LedgerRow) (dim : List DimAccount) :
    kpi_monthly fact dim =
      kpi_monthly (fact.filter (fun f => (lookupType dim f.account_code).isSome)) dim := by
  rw [kpi_monthly, kpi_monthly, kpiKeys_filter, kpiTypes_filter]
  simp only [kpiCell_filter]

def orphanLedger : LedgerRow :=
  ⟨"TLM|sales|INV-9", ⟨2025, 12, 5⟩, "TLM", "sales", "INV-9", "99999999", "USD",
   50, 1, 50, none⟩

/-- Claim C7 counterexample: one unclassified ledger row produces an empty
KPI table — its amount lands in no bucket at all, and its (entity, month)
is absent, refuting the claimed "unclassified" bucket. -/
theorem claim_C7_counterexample :
    lookupType [⟨"40000001", "Sales Revenue", "Revenue"⟩] orphanLedger.account_code = none ∧
    kpi_monthly [orphanLedger] [⟨"40000001", "Sales Revenue", "Revenue"⟩] = [] := by
  constructor
  · decide
  · decide

/-- Claim C8 as amended: the fail_on threshold is validated only when DQ
issues exist — then an invalid value raises the configuration error after
the two DQ artifacts are written and before any curated output — and with
no issues the threshold (valid or not) never influences the run. -/
theorem claim_C8_config_check_only_with_issues :
    (∀ (settings : Settings) (month : Month) (inp : RunInput) (fail_on : String),
      runIssues settings inp ≠ [] →
      strStrip (strUpper fail_on) ∉ (["ERROR", "WARN", "NEVER"] : List String) →
      run_month settings month inp fail_on =
        ⟨[Artifact.dqExceptions, Artifact.dqSummary], none, none,
          some RunError.configError⟩) ∧
    (∀ (settings : Settings) (month : Month) (inp : RunInput) (f1 f2 : String),
      runIssues settings inp = [] →
      run_month settings month inp f1 = run_month settings month inp f2) :=
  ⟨fun settings month inp fail_on hne hconf =>
    run_month_issues settings month inp fail_on hne _ (dq_decision_invalid _ _ hconf),
   fun settings month inp f1 f2 h => run_month_fail_on_irrelevant settings month inp f1 f2 h⟩

def cleanSale : RawSaleRow :=
  ⟨some ⟨2025, 12, 5⟩, some "TLM", some "INV-0001", some "40000001", some "USD",
   some 1000, none⟩

def cleanExpense : RawExpenseRow :=
  ⟨some ⟨2025, 12, 6⟩, some "TLM", some "BILL-0001", some "62000001", some "USD",
   some 100, none⟩

def cleanPayroll : RawPayrollRow :=
  ⟨some ⟨2025, 12⟩, some "TLM", some "EMP-001", some "USD", some 1000, some 100, some 900⟩

def cleanFx : RawFxRow := ⟨some ⟨2025, 12, 1⟩, some "EUR", some "USD", some (11/10)⟩

/-- A fully valid input set: every batch passes its schema. -/
def cleanInput : RunInput :=
  ⟨[⟨"40000001", "Sales Revenue", "Revenue"⟩], [cleanSale], [cleanExpense],
   [cleanPayroll], [], [cleanFx]⟩

/-- Claim C8 counterexample: a run with zero DQ issues and the invalid
threshold "BOGUS" raises no configuration error at all — it completes and
writes all five artifacts, refuting "raises immediately, before any input
loading, validation, or artifact writing — including runs whose inputs
produce no DQ issues". -/
theorem claim_C8_counterexample :
    strStrip (strUpper "BOGUS") ∉ (["ERROR", "WARN", "NEVER"] : List String) ∧
    runIssues sampleSettings cleanInput = [] ∧
    (run_month sampleSettings ⟨2025, 12⟩ cleanInput "BOGUS").outcome = none ∧
    (run_month sampleSettings ⟨2025, 12⟩ cleanInput "BOGUS").written =
      [Artifact.dqExceptions, Artifact.dqSummary, Artifact.factTransactions,
       Artifact.dimAccounts, Artifact.kpiMonthly] := by
  refine ⟨by decide, by decide, by decide, by decide⟩

/-- Witness for C8 at a concrete issues-present run with a padded
lower-case invalid threshold (exercising the upper/strip normalisation). -/
theorem claim_C8_witness :
    runIssues sampleSettings allEmptyInput ≠ [] ∧
    strStrip (strUpper " bogus ") ∉ (["ERROR", "WARN", "NEVER"] : List String) ∧
    run_month sampleSettings ⟨2025, 12⟩ allEmptyInput " bogus " =
      ⟨[Artifact.dqExceptions, Artifact.dqSummary], none, none,
        some RunError.configError⟩ :=
  ⟨by decide, by decide,
   claim_C8_config_check_only_with_issues.1 _ _ _ _ (by decide) (by decide)⟩

/-- Claim C9: an empty batch is classified invalid, not vacuously valid:
the duplicate-key check computes the max group size of an empty grouping
(`none`, pandas NaN) which never equals 1, and the payroll identity check
computes the max of an empty deviation list, so validation of an empty
sales, expenses or fx_rates batch fails the duplicate-key check and an
empty payroll batch fails the payroll-identity check, each returning
`None` plus one DQ exception. -/
theorem claim_C9_empty_batch_invalid (allowed : List String) (base : String) :
    maxGroupSize ([] : List (String × String)) = none ∧
    dup_ok ([] : List (String × String)) = false ∧
    payroll_identity_ok [] = false ∧
    validate_sales allowed [] =
      (none, [⟨"sales", none, none, dup_error "[entity, invoice_id]" "sales"⟩]) ∧
    validate_expenses allowed [] =
      (none, [⟨"expenses", none, none, dup_error "[entity, bill_id]" "expenses"⟩]) ∧
    validate_fx allowed base [] =
      (none, [⟨"fx_rates", none, none,
        dup_error "[date, from_currency, to_currency]" "fx_rates"⟩]) ∧
    validate_payroll allowed [] =
      (none, [⟨"payroll", none, none, payroll_identity_error⟩]) :=
  ⟨rfl, rfl, rfl, rfl, rfl, rfl, rfl⟩

/-- Claim C10: under the uniqueness of (date, from_currency) keys that the
upstream fx schema guarantees (its duplicate-key check on (date,
from_currency, to_currency) triples together with the to_currency = base
column check), `add_fx_amount_base` returns exactly one output record per
input record, in the same order. -/
theorem claim_C10_rowcount_preserved (rows : List DraftRow) (fx : List FxRow)
    (base : String) (facts : List FactRow) (hn : (fxKeys fx).Nodup)
    (he : add_fx_amount_base rows fx base = Except.ok facts) :
    (facts.length = rows.length ∧
      ∀ i (h : i < rows.length) (h2 : i < facts.length),
        (facts.get ⟨i, h2⟩).toDraft = rows.get ⟨i, h⟩) ∧
    (∀ fxr : List FxRow, (∀ f ∈ fxr, f.to_currency = base) →
      (fxr.map (fun f => (f.date, f.from_currency, f.to_currency))).Nodup →
      (fxKeys (fx_to_base fxr base)).Nodup) := by
  constructor
  · obtain ⟨F, hfacts, hFd, _⟩ := add_fx_ok_map rows fx base facts hn he
    subst hfacts
    refine ⟨by simp, fun i h h2 => ?_⟩
    rw [List.get_eq_getElem, List.get_eq_getElem, List.getElem_map]
    exact hFd _
  · intro fxr hall hnd
    have hfilter : fx_to_base fxr base = fxr :=
      List.filter_eq_self.mpr (fun f hf => by simpa using hall f hf)
    rw [hfilter]
    exact nodup_pairs_of_triples base fxr hall hnd

def w10row : DraftRow := ⟨⟨2025, 12, 5⟩, "TLM", "expenses", "B1", "62000001", "EUR", 100, none⟩

def w10fx : FxRow := ⟨⟨2025, 12, 5⟩, "EUR", "USD", 11/10⟩

def w10fact : FactRow :=
  ⟨⟨2025, 12, 5⟩, "TLM", "expenses", "B1", "62000001", "EUR", 100, 11/10, 110, none⟩

/-- Witness for C10 at a one-row merge against a one-rate lookup. -/
theorem claim_C10_witness :
    (fxKeys [w10fx]).Nodup ∧
    add_fx_amount_base [w10row] [w10fx] "USD" = Except.ok [w10fact] ∧
    ([w10fact].length = [w10row].length ∧
      ∀ i (h : i < [w10row].length) (h2 : i < [w10fact].length),
        ([w10fact].get ⟨i, h2⟩).toDraft = [w10row].get ⟨i, h⟩) := by
  have he : add_fx_amount_base [w10row] [w10fx] "USD" = Except.ok [w10fact] := by decide
  exact ⟨by decide, he,
    (claim_C10_rowcount_preserved [w10row] [w10fx] "USD" [w10fact] (by decide) he).1⟩

end FinanceEtl
